import Mathlib

/-!
Verification of the scrap compiler IR layer (`src/ir.h`, the `op_arity`
translation unit, and the demo program `main.cc`), shallowly embedded in
Lean 4.  Machine integers (`uint16_t` operands, `int32_t` constants, `int`
counters) are modelled as `Nat`/`Int`; where a claim depends on the 16-bit
range it appears as an explicit bound hypothesis.  The construction-time
`assert` in the four `Instruction` constructors is modelled by returning
`Option Instruction`: `some` when the assertion holds, `none` when it fires.
-/

namespace scrap.ir

/-- The opcode catalog, in the order of the `enum class Opcode` in `ir.h`. -/
inductive Opcode : Type
  -- utilities
  | NOP | PHI | MOV | CMOV
  -- branch targets
  | JTARG | JLOOP | JFOR
  -- branching
  | JUMP | JT | JF
  -- assertions
  | ASSERT | ATYPE
  -- predicates
  | EQ | NEQ | IN | NIN | LT | GEQ | GT | LEQ
  -- boolean operations
  | AND | NOT2 | OR | XOR | NOT | BOOL
  -- function calls
  | SARG | CALL | RET | RETV | TCALL
  -- constants
  | INTK | STRK | BOOLK | TYPEK
  -- arithmetic operations
  | ADD | SUB | MUL | FDIV | MOD | POW | DIV | MIN | MAX
  | NEG | ABS | FLOOR | CEIL
  -- bitwise operations
  | BITAND | BITOR | BITXOR | BITANOT | BITSHR | BITSHL | BITNOT
  -- string operations
  | CAT | FMT
  -- indexing operations
  | GETI | SETI | DELI
  -- collection operations
  | LEN
  deriving DecidableEq

open Opcode

/-- Embeds `int op_arity(Opcode op)`: the switch from the `op_arity` translation
unit, case groups in source order, `default: return 2`. -/
def op_arity : Opcode → Nat
  | NOP | JTARG | JLOOP | SARG | RETV => 0
  | MOV | JUMP | ASSERT | NOT | BOOL | RET
  | INTK | STRK | BOOLK | TYPEK
  | NEG | ABS | FLOOR | CEIL | BITNOT | LEN => 1
  | CMOV | JFOR | SETI => 3
  | _ => 2

/-- Embeds `inline bool op_is_cond_branch(Opcode op)` from `ir.h`. -/
def op_is_cond_branch (op : Opcode) : Bool :=
  op = JT || op = JF || op = JFOR

/-- Embeds `inline bool op_is_uncond_branch(Opcode op)` from `ir.h`. -/
def op_is_uncond_branch (op : Opcode) : Bool :=
  op = JUMP

/-- Modelled from the spec: `bool op_has_result(Opcode op)` is declared in
`ir.h` but its translation unit is not in the repository sources.  Per the
spec it is true iff the instruction produces a usable virtual-register value
consumable by later instructions: false for RET, RETV, JUMP, JT, JF, ASSERT,
SETI, DELI and the branch-target markers (JTARG, JLOOP, JFOR), and false for
the other control/terminator/pure-statement opcodes (NOP, SARG, TCALL);
every arithmetic, predicate, boolean, bitwise, string, constant,
non-tail-call and indexing-read opcode yields a result. -/
def op_has_result : Opcode → Bool
  | RET | RETV | JUMP | JT | JF | ASSERT | SETI | DELI
  | JTARG | JLOOP | JFOR
  | NOP | SARG | TCALL => false
  | _ => true

/-- Embeds `struct Instruction`: one opcode plus a fixed array of three 16-bit
operand slots (`uint16_t arg[3]`), modelled as three `Nat` fields. -/
structure Instruction : Type where
  op : Opcode
  arg0 : Nat
  arg1 : Nat
  arg2 : Nat
  deriving DecidableEq

/-- Read of the operand array `arg[j]` by slot index. -/
def Instruction.argIdx (ins : Instruction) : Fin 3 → Nat
  | 0 => ins.arg0
  | 1 => ins.arg1
  | 2 => ins.arg2

/-- Embeds `Instruction(Opcode op_)`: the zero-operand constructor; the body runs
`assert(op_arity(op_) == 0)` and zero-fills all three slots. -/
def mkInstruction0 (op : Opcode) : Option Instruction :=
  if op_arity op = 0 then some ⟨op, 0, 0, 0⟩ else none

/-- Embeds `Instruction(Opcode op_, uint16_t arg0)`: the one-operand constructor;
asserts `op_arity(op_) == 1`, stores `arg0` and zero-fills the rest. -/
def mkInstruction1 (op : Opcode) (a0 : Nat) : Option Instruction :=
  if op_arity op = 1 then some ⟨op, a0, 0, 0⟩ else none

/-- Embeds `Instruction(Opcode op_, uint16_t arg0, uint16_t arg1)`: the two-operand
constructor; asserts `op_arity(op_) == 2`. -/
def mkInstruction2 (op : Opcode) (a0 a1 : Nat) : Option Instruction :=
  if op_arity op = 2 then some ⟨op, a0, a1, 0⟩ else none

/-- Embeds the three-operand constructor
`Instruction(Opcode op_, uint16_t arg0, uint16_t arg1, uint16_t arg2)`;
asserts `op_arity(op_) == 3`. -/
def mkInstruction3 (op : Opcode) (a0 a1 a2 : Nat) : Option Instruction :=
  if op_arity op = 3 then some ⟨op, a0, a1, a2⟩ else none

/-- Embeds `struct Function` from `ir.h`: argument/upvalue counts, the two constant
pools and the instruction stream. -/
structure Function : Type where
  num_pos_args : Int
  num_upvalues : Int
  strk_table : List String
  intk_table : List Int
  text : List Instruction
  deriving DecidableEq

/-- Embeds `func.text.push_back(ins)`. -/
def Function.push_text (f : Function) (ins : Instruction) : Function :=
  { f with text := f.text ++ [ins] }

/-- Embeds `func.intk_table.push_back(k)`. -/
def Function.push_intk (f : Function) (k : Int) : Function :=
  { f with intk_table := f.intk_table ++ [k] }

/-- Embeds `func.strk_table.push_back(s)`. -/
def Function.push_strk (f : Function) (s : String) : Function :=
  { f with strk_table := f.strk_table ++ [s] }

/-- The hand-assembled function built by `main` in `main.cc`, with the
appends in program order; `none` if any construction-time assertion
fires. -/
def demoFunc : Option Function := do
  let f : Function :=
    { num_pos_args := 0, num_upvalues := 0
      strk_table := [], intk_table := [], text := [] }
  -- x = 1 + 1
  let f := f.push_intk 1
  let i0 ← mkInstruction1 Opcode.INTK 0
  let f := f.push_text i0
  let i1 ← mkInstruction2 Opcode.ADD 0 0
  let f := f.push_text i1
  -- assert x == 2
  let f := f.push_intk 2
  let i2 ← mkInstruction1 Opcode.INTK 1
  let f := f.push_text i2
  let i3 ← mkInstruction2 Opcode.EQ 2 3
  let f := f.push_text i3
  let i4 ← mkInstruction1 Opcode.ASSERT 4
  let f := f.push_text i4
  -- return x
  let i5 ← mkInstruction1 Opcode.RET 2
  let f := f.push_text i5
  pure f

/-- Helper: an optional value built by a conditional is present exactly when
the condition holds. -/
lemma isSome_ite {α : Type} (c : Prop) [Decidable c] (a : α) :
    (if c then some a else none).isSome = true ↔ c := by
  split <;> simp_all

/-- C1: for every opcode, `op_arity` returns exactly the value given by the
partition of §4.1 — 0 for NOP, JTARG, JLOOP, SARG, RETV; 1 for MOV, JUMP,
ASSERT, NOT, BOOL, RET, INTK, STRK, BOOLK, TYPEK, NEG, ABS, FLOOR, CEIL,
BITNOT, LEN; 3 for CMOV, JFOR, SETI; and 2 for every other opcode. -/
theorem op_arity_matches_partition (op : Opcode) :
    op_arity op =
      (if op ∈ [NOP, JTARG, JLOOP, SARG, RETV] then 0
       else if op ∈ [MOV, JUMP, ASSERT, NOT, BOOL, RET, INTK, STRK, BOOLK,
                     TYPEK, NEG, ABS, FLOOR, CEIL, BITNOT, LEN] then 1
       else if op ∈ [CMOV, JFOR, SETI] then 3
       else 2) := by
  cases op <;> rfl

/-- C2: each k-operand constructor succeeds (its assertion holds) exactly
when `op_arity op = k`, for every opcode and every operand tuple; any other
operand count fails the construction-time assertion. -/
theorem instruction_ctor_succeeds_iff_arity (op : Opcode) (a0 a1 a2 : Nat) :
    ((mkInstruction0 op).isSome = true ↔ op_arity op = 0) ∧
    ((mkInstruction1 op a0).isSome = true ↔ op_arity op = 1) ∧
    ((mkInstruction2 op a0 a1).isSome = true ↔ op_arity op = 2) ∧
    ((mkInstruction3 op a0 a1 a2).isSome = true ↔ op_arity op = 3) :=
  ⟨isSome_ite _ _, isSome_ite _ _, isSome_ite _ _, isSome_ite _ _⟩

/-- C3: `op_is_cond_branch` holds exactly on {JT, JF, JFOR} and
`op_is_uncond_branch` exactly on {JUMP}; the two predicates are mutually
exclusive and together cover exactly {JUMP, JT, JF, JFOR}, with JFOR
conditional and not unconditional. -/
theorem branch_classifier_partition (op : Opcode) :
    (op_is_cond_branch op = true ↔ (op = JT ∨ op = JF ∨ op = JFOR)) ∧
    (op_is_uncond_branch op = true ↔ op = JUMP) ∧
    ¬(op_is_cond_branch op = true ∧ op_is_uncond_branch op = true) ∧
    ((op_is_cond_branch op = true ∨ op_is_uncond_branch op = true) ↔
      (op = JUMP ∨ op = JT ∨ op = JF ∨ op = JFOR)) ∧
    op_is_cond_branch JFOR = true ∧ op_is_uncond_branch JFOR = false := by
  cases op <;> decide

/-- C4: the canonical demo build from `main.cc` yields a text sequence of
length 6 with opcodes [INTK, ADD, INTK, EQ, ASSERT, RET], `intk_table`
equal to [1, 2] and `strk_table` empty. -/
theorem demo_function_shape :
    Option.map (fun f : Function => f.text.length) demoFunc = some 6 ∧
    Option.map (fun f : Function => f.text.map Instruction.op) demoFunc =
      some [INTK, ADD, INTK, EQ, ASSERT, RET] ∧
    Option.map (fun f : Function => f.intk_table) demoFunc = some [1, 2] ∧
    Option.map (fun f : Function => f.strk_table) demoFunc = some [] :=
  ⟨rfl, rfl, rfl, rfl⟩

/-- C5: `op_has_result` is false on RET, RETV, JUMP, JT, JF, ASSERT, SETI,
DELI, JTARG, JLOOP, JFOR, and every opcode with a result is outside that
set (the modelled definition holds exactly on the result-producing
opcodes). -/
theorem op_has_result_excludes_control (op : Opcode) :
    (op ∈ [RET, RETV, JUMP, JT, JF, ASSERT, SETI, DELI,
           JTARG, JLOOP, JFOR] → op_has_result op = false) ∧
    (op_has_result op = true →
      op ∉ [RET, RETV, JUMP, JT, JF, ASSERT, SETI, DELI,
            JTARG, JLOOP, JFOR]) := by
  cases op <;> decide

/-- C5 witness: instantiated at RET (in the excluded set) and ADD (which
has a result). -/
theorem op_has_result_excludes_control_witness :
    op_has_result RET = false ∧
    ADD ∉ [RET, RETV, JUMP, JT, JF, ASSERT, SETI, DELI,
           JTARG, JLOOP, JFOR] :=
  ⟨(op_has_result_excludes_control RET).1 (by decide),
   (op_has_result_excludes_control ADD).2 (by decide)⟩

/-- C6: `op_arity` is total with range inside {0, 1, 2, 3}, and is
deterministic: equal inputs always give equal outputs. -/
theorem op_arity_total_deterministic (op : Opcode) :
    (op_arity op = 0 ∨ op_arity op = 1 ∨ op_arity op = 2 ∨
      op_arity op = 3) ∧
    ∀ op' : Opcode, op = op' → op_arity op = op_arity op' := by
  constructor
  · cases op <;> decide
  · intro op' h
    rw [h]

/-- C6 witness: instantiated at NOP. -/
theorem op_arity_total_deterministic_witness :
    (op_arity NOP = 0 ∨ op_arity NOP = 1 ∨ op_arity NOP = 2 ∨
      op_arity NOP = 3) ∧
    op_arity NOP = op_arity NOP :=
  ⟨(op_arity_total_deterministic NOP).1,
   (op_arity_total_deterministic NOP).2 NOP rfl⟩

/-- C7: the core data structures never check constant-pool index ranges:
for every 16-bit index, constructing `STRK i` or `INTK i` succeeds and
appending the result to any `Function` succeeds, with no dependence on the
table lengths. -/
theorem pool_index_never_checked (f : Function) (i : Nat) (hi : i < 65536) :
    mkInstruction1 STRK i = some ⟨STRK, i, 0, 0⟩ ∧
    mkInstruction1 INTK i = some ⟨INTK, i, 0, 0⟩ ∧
    (f.push_text ⟨STRK, i, 0, 0⟩).text = f.text ++ [⟨STRK, i, 0, 0⟩] ∧
    (f.push_text ⟨INTK, i, 0, 0⟩).text = f.text ++ [⟨INTK, i, 0, 0⟩] :=
  ⟨rfl, rfl, rfl, rfl⟩

/-- C7 witness: a function with empty constant pools accepts `STRK 7` and
`INTK 7`, both indices out of range. -/
theorem pool_index_never_checked_witness :
    mkInstruction1 STRK 7 =
      some ⟨STRK, 7, 0, 0⟩ ∧
    mkInstruction1 INTK 7 =
      some ⟨INTK, 7, 0, 0⟩ ∧
    (Function.push_text ⟨0, 0, [], [], []⟩ ⟨STRK, 7, 0, 0⟩).text =
      [] ++ [⟨STRK, 7, 0, 0⟩] ∧
    (Function.push_text ⟨0, 0, [], [], []⟩ ⟨INTK, 7, 0, 0⟩).text =
      [] ++ [⟨INTK, 7, 0, 0⟩] :=
  pool_index_never_checked ⟨0, 0, [], [], []⟩ 7 (by decide)

/-- C8: every instruction produced by any of the four constructors has all
operand slots at index at least `op_arity op` equal to zero. -/
theorem unused_slots_are_zero (op : Opcode) (a0 a1 a2 : Nat) :
    (∀ ins, mkInstruction0 op = some ins →
      ∀ j : Fin 3, op_arity op ≤ (j : Nat) → ins.argIdx j = 0) ∧
    (∀ ins, mkInstruction1 op a0 = some ins →
      ∀ j : Fin 3, op_arity op ≤ (j : Nat) → ins.argIdx j = 0) ∧
    (∀ ins, mkInstruction2 op a0 a1 = some ins →
      ∀ j : Fin 3, op_arity op ≤ (j : Nat) → ins.argIdx j = 0) ∧
    (∀ ins, mkInstruction3 op a0 a1 a2 = some ins →
      ∀ j : Fin 3, op_arity op ≤ (j : Nat) → ins.argIdx j = 0) := by
  refine ⟨?_, ?_, ?_, ?_⟩ <;>
    · intro ins h j hj
      simp only [mkInstruction0, mkInstruction1, mkInstruction2,
        mkInstruction3] at h
      split at h
      · cases h
        rename_i harity
        rw [harity] at hj
        fin_cases j <;> simp_all [Instruction.argIdx]
      · cases h

/-- C8 witness: the one-operand constructor at INTK with operand 5 leaves
slot 1 zero. -/
theorem unused_slots_are_zero_witness :
    Instruction.argIdx ⟨INTK, 5, 0, 0⟩ 1 = 0 :=
  (unused_slots_are_zero INTK 5 0 0).2.1 ⟨INTK, 5, 0, 0⟩ rfl 1 (by decide)

/-- C9: the constructors store their 16-bit operands verbatim, with no
transformation, clamping or reordering: when the arity matches, the
resulting instruction carries exactly the given opcode and operands. -/
theorem ctor_stores_operands_verbatim (op : Opcode) (a0 a1 a2 : Nat)
    (h0 : a0 < 65536) (h1 : a1 < 65536) (h2 : a2 < 65536) :
    (op_arity op = 0 → mkInstruction0 op = some ⟨op, 0, 0, 0⟩) ∧
    (op_arity op = 1 → mkInstruction1 op a0 = some ⟨op, a0, 0, 0⟩) ∧
    (op_arity op = 2 → mkInstruction2 op a0 a1 = some ⟨op, a0, a1, 0⟩) ∧
    (op_arity op = 3 →
      mkInstruction3 op a0 a1 a2 = some ⟨op, a0, a1, a2⟩) := by
  refine ⟨?_, ?_, ?_, ?_⟩ <;>
    · intro h
      simp [mkInstruction0, mkInstruction1, mkInstruction2,
        mkInstruction3, h]

/-- C9 witness: SETI (arity 3) with operands 1, 2, 3 is stored verbatim. -/
theorem ctor_stores_operands_verbatim_witness :
    mkInstruction3 SETI 1 2 3 = some ⟨SETI, 1, 2, 3⟩ :=
  (ctor_stores_operands_verbatim SETI 1 2 3
    (by decide) (by decide) (by decide)).2.2.2 (by decide)

/-- C10: each append operation on a `Function` touches only its own field:
`push_text` leaves both constant pools and the counters unchanged,
`push_intk` leaves the text, the string pool and the counters unchanged,
and `push_strk` leaves the text, the integer pool and the counters
unchanged. -/
theorem append_ops_touch_only_own_field (f : Function) (ins : Instruction)
    (s : String) (k : Int) :
    (f.push_text ins).strk_table = f.strk_table ∧
    (f.push_text ins).intk_table = f.intk_table ∧
    (f.push_text ins).num_pos_args = f.num_pos_args ∧
    (f.push_text ins).num_upvalues = f.num_upvalues ∧
    (f.push_intk k).text = f.text ∧
    (f.push_intk k).strk_table = f.strk_table ∧
    (f.push_intk k).num_pos_args = f.num_pos_args ∧
    (f.push_intk k).num_upvalues = f.num_upvalues ∧
    (f.push_strk s).text = f.text ∧
    (f.push_strk s).intk_table = f.intk_table ∧
    (f.push_strk s).num_pos_args = f.num_pos_args ∧
    (f.push_strk s).num_upvalues = f.num_upvalues :=
  ⟨rfl, rfl, rfl, rfl, rfl, rfl, rfl, rfl, rfl, rfl, rfl, rfl⟩

end scrap.ir
